import Mathlib

/-!
Formal model of the wgpu window/render demo (src/lib.rs).

The render-surface state (`State`) and the application shell (`App`) are
embedded shallowly.  GPU-side and window-side side effects (configuring
the surface, acquiring the next texture, submitting a command buffer,
presenting, requesting a redraw, signalling event-loop exit, logging)
are recorded as an explicit effect trace.  Cursor positions and color
channels, `f64` in the source, are modelled as rationals; the claims
under study concern which fields are written, not float rounding.
Surface-texture acquisition (`surface.get_current_texture()`), the one
fallible call in `render`, is modelled by an oracle parameter
`acquire : Except SurfaceError Unit` supplied by the environment.
-/

/-- Model of `wgpu::SurfaceConfiguration` (src/lib.rs, lines 123-133).
The non-numeric fields (usage, format, present mode, alpha mode,
view formats) are abstracted as opaque numeric codes; `width` and
`height` are the pixel dimensions set by `State::new` and
`State::resize`. -/
structure SurfaceConfiguration where
  usage : Nat
  format : Nat
  width : Nat
  height : Nat
  presentMode : Nat
  alphaMode : Nat
  viewFormats : List Nat
  desiredMaximumFrameLatency : Nat
deriving DecidableEq, Repr

/-- Model of `wgpu::Color` (double-precision channels in the source,
rationals here). -/
structure Color where
  r : ℚ
  g : ℚ
  b : ℚ
  a : ℚ
deriving DecidableEq, Repr

/-- Model of `winit::keyboard::KeyCode`: the `Escape` variant is the
only one `handle_key` distinguishes; all other key codes are collapsed
into `Other`. -/
inductive KeyCode where
  | Escape : KeyCode
  | Space : KeyCode
  | KeyW : KeyCode
  | Other : Nat → KeyCode
deriving DecidableEq, Repr

/-- Model of `winit::keyboard::PhysicalKey`: `window_event` dispatches
`handle_key` only when the key resolves to a `Code`. -/
inductive PhysicalKey where
  | Code : KeyCode → PhysicalKey
  | Unidentified : PhysicalKey
deriving DecidableEq, Repr

/-- Model of `wgpu::SurfaceError`, the error type returned by
`surface.get_current_texture()` and propagated out of `State::render`. -/
inductive SurfaceError where
  | Timeout : SurfaceError
  | Outdated : SurfaceError
  | Lost : SurfaceError
  | OutOfMemory : SurfaceError
  | Other : SurfaceError
deriving DecidableEq, Repr

/-- Observable side effects of the state's operations, recorded as a
trace: surface (re)configuration, redraw request, surface-texture
acquisition, queue submission, frame presentation, event-loop exit,
error logging, and the close-request println. -/
inductive Effect where
  | configureSurface : SurfaceConfiguration → Effect
  | requestRedraw : Effect
  | getCurrentTexture : Effect
  | submit : Effect
  | present : Effect
  | exitEventLoop : Effect
  | logError : Effect
  | printMessage : Effect
deriving DecidableEq, Repr

/-- Model of `State` (src/lib.rs, lines 24-36): the render-surface
state for one window.  The GPU handles (surface, device, queue,
pipelines) carry no data relevant to the claims and are elided; the
window handle is represented by its current inner size, which is what
the code reads from it. -/
structure State where
  config : SurfaceConfiguration
  is_surface_configured : Bool
  windowSize : Nat × Nat
  clear_color : Color
  logging : Bool
  mouse_position : Option (ℚ × ℚ)
deriving DecidableEq, Repr

/-- Model of the successful tail of `State::new` (src/lib.rs, lines
123-140 and 209-223): the configuration takes its width and height
from the window's inner size, the format / present mode / alpha mode
from the surface capabilities (abstracted as the numeric parameters),
`desired_maximum_frame_latency` is 2, the clear color is
(0.1, 0.1, 0.1, 1.0), `is_surface_configured` starts `false` and
`mouse_position` starts `None`. -/
def State.new (windowSize : Nat × Nat) (logging : Bool)
    (surfaceFormat presentMode alphaMode : Nat) : State :=
  { config :=
      { usage := 0
        format := surfaceFormat
        width := windowSize.1
        height := windowSize.2
        presentMode := presentMode
        alphaMode := alphaMode
        viewFormats := []
        desiredMaximumFrameLatency := 2 }
    is_surface_configured := false
    windowSize := windowSize
    clear_color := { r := 1/10, g := 1/10, b := 1/10, a := 1 }
    logging := logging
    mouse_position := none }

/-- Model of `State::resize` (src/lib.rs, lines 225-232): when both
dimensions are positive, writes them into the stored configuration,
reconfigures the surface with that configuration and sets the
configured flag; otherwise does nothing. -/
def State.resize (s : State) (width height : Nat) : State × List Effect :=
  if 0 < width ∧ 0 < height then
    let config := { s.config with width := width, height := height }
    ({ s with config := config, is_surface_configured := true },
      [Effect.configureSurface config])
  else
    (s, [])

/-- Model of `State::render` (src/lib.rs, lines 234-277): always
requests a redraw first; returns `Ok` immediately when the surface was
never configured; otherwise acquires the current surface texture
(fallible, propagating the error with `?`), records and submits the
command buffer, and presents.  The state itself is never mutated. -/
def State.render (s : State) (acquire : Except SurfaceError Unit) :
    State × List Effect × Except SurfaceError Unit :=
  if !s.is_surface_configured then
    (s, [Effect.requestRedraw], Except.ok ())
  else
    match acquire with
    | Except.error e =>
        (s, [Effect.requestRedraw, Effect.getCurrentTexture], Except.error e)
    | Except.ok _ =>
        (s, [Effect.requestRedraw, Effect.getCurrentTexture,
             Effect.submit, Effect.present], Except.ok ())

/-- Model of `State::handle_key` (src/lib.rs, lines 279-284): on
(Escape, pressed) signals the event loop to exit; every other pair
falls to the wildcard arm and does nothing. -/
def State.handle_key (s : State) (code : KeyCode) (is_pressed : Bool) :
    State × List Effect :=
  match code, is_pressed with
  | KeyCode.Escape, true => (s, [Effect.exitEventLoop])
  | _, _ => (s, [])

/-- Model of `State::handle_mouse_moved` (src/lib.rs, lines 286-297):
recomputes the red and green channels of the clear color as the
cursor's fractional position within the window's inner size, keeping
blue and alpha. -/
def State.handle_mouse_moved (s : State) (position : ℚ × ℚ) : State :=
  let size := s.windowSize
  let r := position.1 / (size.1 : ℚ)
  let g := position.2 / (size.2 : ℚ)
  { s with clear_color :=
      { r := r, g := g, b := s.clear_color.b, a := s.clear_color.a } }

/-- Model of `State::handle_mouse_moved2` (src/lib.rs, lines 299-301):
stores the raw cursor position in `mouse_position`. -/
def State.handle_mouse_moved2 (s : State) (position : ℚ × ℚ) : State :=
  { s with mouse_position := some position }

/-- Model of `State::update` (src/lib.rs, lines 303-305): a no-op
placeholder. -/
def State.update (s : State) : State := s

/-- Model of `winit::event::WindowEvent`, restricted to the variants
`App::window_event` distinguishes; every remaining variant is
collapsed into `Other` (the wildcard arm). -/
inductive WindowEvent where
  | CloseRequested : WindowEvent
  | Resized : Nat → Nat → WindowEvent
  | RedrawRequested : WindowEvent
  | KeyboardInput : PhysicalKey → Bool → WindowEvent
  | CursorMoved : ℚ × ℚ → WindowEvent
  | Other : WindowEvent

/-- Model of `App` (src/lib.rs, lines 308-313): the application shell
holding the primary render state and the second window's render state. -/
structure App where
  state : Option State
  state2 : Option State

/-- Model of `App::window_event` (src/lib.rs, lines 405-448).  The
window id parameter is received but never consulted (the source binds
it as `_window_id`); the handler returns early when `self.state` is
`None`, and otherwise dispatches every event to that primary state:
close requests only print a message, resizes call `resize`, redraws
call `update` then `render` with lost/outdated errors answered by a
`resize` to the window's current inner size and all other errors
logged, keyboard events with a resolvable code call `handle_key`, and
cursor moves call `handle_mouse_moved2`. -/
def App.window_event (app : App) (_window_id : Nat) (event : WindowEvent)
    (acquire : Except SurfaceError Unit) : App × List Effect :=
  match app.state with
  | none => (app, [])
  | some state =>
    match event with
    | WindowEvent.CloseRequested => (app, [Effect.printMessage])
    | WindowEvent.Resized w h =>
        let res := state.resize w h
        ({ app with state := some res.1 }, res.2)
    | WindowEvent.RedrawRequested =>
        let s0 := state.update
        let res := s0.render acquire
        match res.2.2 with
        | Except.ok _ => ({ app with state := some res.1 }, res.2.1)
        | Except.error SurfaceError.Lost =>
            let size := res.1.windowSize
            let res2 := res.1.resize size.1 size.2
            ({ app with state := some res2.1 }, res.2.1 ++ res2.2)
        | Except.error SurfaceError.Outdated =>
            let size := res.1.windowSize
            let res2 := res.1.resize size.1 size.2
            ({ app with state := some res2.1 }, res.2.1 ++ res2.2)
        | Except.error _ =>
            ({ app with state := some res.1 }, res.2.1 ++ [Effect.logError])
    | WindowEvent.KeyboardInput (PhysicalKey.Code code) pressed =>
        let res := state.handle_key code pressed
        ({ app with state := some res.1 }, res.2)
    | WindowEvent.KeyboardInput PhysicalKey.Unidentified _ => (app, [])
    | WindowEvent.CursorMoved position =>
        ({ app with state := some (state.handle_mouse_moved2 position) }, [])
    | WindowEvent.Other => (app, [])

/-- An operation on one render-surface state, for stating invariants
over arbitrary call sequences: every public mutating method of `State`. -/
inductive Op where
  | resize : Nat → Nat → Op
  | render : Except SurfaceError Unit → Op
  | handle_key : KeyCode → Bool → Op
  | handle_mouse_moved : ℚ × ℚ → Op
  | handle_mouse_moved2 : ℚ × ℚ → Op
  | update : Op

/-- Apply one operation to a state, returning the new state and the
effects it emitted. -/
def step (s : State) : Op → State × List Effect
  | Op.resize w h => s.resize w h
  | Op.render acquire =>
      let res := s.render acquire
      (res.1, res.2.1)
  | Op.handle_key code pressed => s.handle_key code pressed
  | Op.handle_mouse_moved p => (s.handle_mouse_moved p, [])
  | Op.handle_mouse_moved2 p => (s.handle_mouse_moved2 p, [])
  | Op.update => (s.update, [])

/-- Run a sequence of operations, concatenating the effect traces. -/
def runOps (s : State) : List Op → State × List Effect
  | [] => (s, [])
  | op :: ops =>
      let r := step s op
      let rs := runOps r.1 ops
      (rs.1, r.2 ++ rs.2)

/-- A freshly constructed sample state (the 800x500 window of the
demo), used to instantiate universally quantified theorems. -/
def sampleState : State := State.new (800, 500) true 0 0 0

/-- The sample state after one positive resize, hence configured. -/
def configuredState : State := (sampleState.resize 800 500).1

/-- A resize operation with both dimensions positive, the only
operation that can set the configured flag. -/
def Op.isPositiveResize : Op → Bool
  | Op.resize w h => decide (0 < w ∧ 0 < h)
  | _ => false

lemma render_fst (s : State) (a : Except SurfaceError Unit) :
    (s.render a).1 = s := by
  cases hf : s.is_surface_configured <;> cases a <;> simp [State.render, hf]

lemma handle_key_fst (s : State) (code : KeyCode) (pressed : Bool) :
    (s.handle_key code pressed).1 = s := by
  cases code <;> cases pressed <;> rfl

lemma step_not_configured (s : State) (op : Op)
    (hs : s.is_surface_configured = false)
    (hop : op.isPositiveResize = false) :
    (step s op).1.is_surface_configured = false ∧
      Effect.present ∉ (step s op).2 := by
  cases op with
  | resize w h =>
      have hwh : ¬(0 < w ∧ 0 < h) := by simpa [Op.isPositiveResize] using hop
      simp [step, State.resize, hwh, hs]
  | render a => cases a <;> simp [step, State.render, hs]
  | handle_key code pressed =>
      cases code <;> cases pressed <;> simp [step, State.handle_key, hs]
  | handle_mouse_moved p => simp [step, State.handle_mouse_moved, hs]
  | handle_mouse_moved2 p => simp [step, State.handle_mouse_moved2, hs]
  | update => simp [step, State.update, hs]

lemma runOps_no_present (ops : List Op) :
    ∀ s : State, s.is_surface_configured = false →
      (ops.all fun op => !op.isPositiveResize) = true →
      Effect.present ∉ (runOps s ops).2 := by
  induction ops with
  | nil => intro s _ _; simp [runOps]
  | cons op ops ih =>
      intro s hs hops
      rw [List.all_cons] at hops
      have hop : op.isPositiveResize = false := by
        have := (Bool.and_eq_true _ _).mp hops |>.1
        simpa using this
      have htail := (Bool.and_eq_true _ _).mp hops |>.2
      have hstep := step_not_configured s op hs hop
      simp only [runOps, List.mem_append]
      push_neg
      exact ⟨hstep.2, ih (step s op).1 hstep.1 htail⟩

/-- C1: starting from a freshly constructed render-surface state, a
sequence of operations containing no resize with both dimensions
positive never emits a present effect (nor can render reach texture
acquisition and submission); render checks the configured flag and
returns early with Ok when it is false. -/
theorem C1_never_present_before_configured (ws : Nat × Nat) (lg : Bool)
    (fmt pm am : Nat) (ops : List Op)
    (hops : (ops.all fun op => !op.isPositiveResize) = true) :
    Effect.present ∉ (runOps (State.new ws lg fmt pm am) ops).2 ∧
    (∀ s : State, ∀ a : Except SurfaceError Unit,
      s.is_surface_configured = false →
      s.render a = (s, [Effect.requestRedraw], Except.ok ())) := by
  refine ⟨runOps_no_present ops _ rfl hops, ?_⟩
  intro s a hs
  simp [State.render, hs]

/-- Witness for C1 at a concrete operation sequence with only
zero-sized resizes. -/
theorem C1_witness :
    Effect.present ∉ (runOps (State.new (800, 500) true 0 0 0)
      [Op.render (Except.ok ()), Op.resize 0 5, Op.update,
       Op.render (Except.ok ())]).2 ∧
    (∀ s : State, ∀ a : Except SurfaceError Unit,
      s.is_surface_configured = false →
      s.render a = (s, [Effect.requestRedraw], Except.ok ())) :=
  C1_never_present_before_configured (800, 500) true 0 0 0
    [Op.render (Except.ok ()), Op.resize 0 5, Op.update,
     Op.render (Except.ok ())] (by decide)

/-- C2: resize with both dimensions positive writes them into the
stored configuration, sets the configured flag, and reconfigures the
surface with the updated configuration. -/
theorem C2_resize_positive (s : State) (w h : Nat) (hw : 0 < w) (hh : 0 < h) :
    (s.resize w h).1.config.width = w ∧
    (s.resize w h).1.config.height = h ∧
    (s.resize w h).1.is_surface_configured = true ∧
    (s.resize w h).2 = [Effect.configureSurface (s.resize w h).1.config] := by
  simp [State.resize, hw, hh]

/-- Witness for C2 at a concrete state and dimensions. -/
theorem C2_witness :
    (sampleState.resize 640 480).1.config.width = 640 ∧
    (sampleState.resize 640 480).1.config.height = 480 ∧
    (sampleState.resize 640 480).1.is_surface_configured = true ∧
    (sampleState.resize 640 480).2 =
      [Effect.configureSurface (sampleState.resize 640 480).1.config] :=
  C2_resize_positive sampleState 640 480 (by decide) (by decide)

/-- C3: resize with either dimension zero is a no-op: the state (all
configuration fields and the configured flag included) is unchanged
and no surface reconfiguration is emitted. -/
theorem C3_resize_zero (s : State) (w h : Nat) (hz : w = 0 ∨ h = 0) :
    s.resize w h = (s, []) := by
  rcases hz with rfl | rfl <;> simp [State.resize]

/-- Witness for C3 at a concrete state and a zero width. -/
theorem C3_witness : sampleState.resize 0 500 = (sampleState, []) :=
  C3_resize_zero sampleState 0 500 (Or.inl rfl)

/-- C4: render on an unconfigured state returns Ok, leaves the state
unchanged, and emits only the redraw request: no texture acquisition,
no submission, no present. -/
theorem C4_render_unconfigured (s : State) (a : Except SurfaceError Unit)
    (hs : s.is_surface_configured = false) :
    s.render a = (s, [Effect.requestRedraw], Except.ok ()) := by
  simp [State.render, hs]

/-- Witness for C4 at the freshly constructed sample state. -/
theorem C4_witness :
    sampleState.render (Except.error SurfaceError.OutOfMemory) =
      (sampleState, [Effect.requestRedraw], Except.ok ()) :=
  C4_render_unconfigured sampleState (Except.error SurfaceError.OutOfMemory) rfl

/-- C5: when a redraw-requested event's render call fails, the handler
invokes resize with the window's current inner size exactly once when
the error is Lost or Outdated (the new primary state is exactly one
resize application and the trace appends exactly that resize's
effects); for every other error it only logs, skips the frame, and
leaves the render-surface state unchanged. -/
theorem C5_redraw_error_recovery (s : State) (s2 : Option State) (wid : Nat)
    (a : Except SurfaceError Unit) (e : SurfaceError)
    (herr : (s.render a).2.2 = Except.error e) :
    (e = SurfaceError.Lost ∨ e = SurfaceError.Outdated →
      App.window_event { state := some s, state2 := s2 } wid
          WindowEvent.RedrawRequested a =
        ({ state := some (s.resize s.windowSize.1 s.windowSize.2).1,
           state2 := s2 },
         (s.render a).2.1 ++ (s.resize s.windowSize.1 s.windowSize.2).2)) ∧
    (e ≠ SurfaceError.Lost ∧ e ≠ SurfaceError.Outdated →
      App.window_event { state := some s, state2 := s2 } wid
          WindowEvent.RedrawRequested a =
        ({ state := some s, state2 := s2 },
         (s.render a).2.1 ++ [Effect.logError])) := by
  have hconf : s.is_surface_configured = true := by
    cases hf : s.is_surface_configured
    · simp [State.render, hf] at herr
    · rfl
  cases a with
  | ok u => simp [State.render, hconf] at herr
  | error eprime =>
      have he : eprime = e := by simpa [State.render, hconf] using herr
      subst he
      constructor
      · rintro (rfl | rfl) <;>
          simp [App.window_event, State.update, State.render, hconf]
      · rintro ⟨h1, h2⟩
        cases eprime <;>
          simp_all [App.window_event, State.update, State.render, hconf]

/-- Witness for C5 at a configured state and a Lost error. -/
theorem C5_witness :
    App.window_event { state := some configuredState, state2 := none } 0
        WindowEvent.RedrawRequested (Except.error SurfaceError.Lost) =
      ({ state := some (configuredState.resize configuredState.windowSize.1
            configuredState.windowSize.2).1, state2 := none },
       (configuredState.render (Except.error SurfaceError.Lost)).2.1 ++
         (configuredState.resize configuredState.windowSize.1
            configuredState.windowSize.2).2) :=
  (C5_redraw_error_recovery configuredState none 0
      (Except.error SurfaceError.Lost) SurfaceError.Lost rfl).1 (Or.inl rfl)

/-- C6: handle_key leaves the state unchanged for every input and
signals event-loop exit exactly when the code is Escape and the key is
pressed; every other input emits no effect at all. -/
theorem C6_handle_key (s : State) (code : KeyCode) (pressed : Bool) :
    (s.handle_key code pressed).1 = s ∧
    (s.handle_key code pressed).2 =
      (if code = KeyCode.Escape ∧ pressed = true then
        [Effect.exitEventLoop] else []) := by
  cases code <;> cases pressed <;> simp [State.handle_key]

/-- C7 counterexample: the event dispatcher ignores the window id.
With both render states present, a cursor-moved event carrying the
second window's id (id 2) is dispatched to — and mutates — the first
window's render state, so events for the second window ARE delivered
to the first window's Render State, contradicting the claim. -/
theorem C7_counterexample :
    (App.window_event { state := some sampleState, state2 := some configuredState }
        2 (WindowEvent.CursorMoved ((5 : ℚ), (7 : ℚ))) (Except.ok ())).1.state =
      some (sampleState.handle_mouse_moved2 ((5 : ℚ), (7 : ℚ))) ∧
    sampleState.handle_mouse_moved2 ((5 : ℚ), (7 : ℚ)) ≠ sampleState := by
  constructor
  · rfl
  · intro hcontra
    exact Option.noConfusion (congrArg State.mouse_position hcontra)

/-- C7 amended: the shell never consults the event's window id — the
dispatch result is identical for any two window ids; it drops the
event exactly when the primary render state is absent (even when the
second state exists), and otherwise dispatches to the primary state,
never touching the second state. -/
theorem C7_amended_dispatch (app : App) (wid wid2 : Nat)
    (event : WindowEvent) (a : Except SurfaceError Unit) :
    App.window_event app wid event a = App.window_event app wid2 event a ∧
    (app.state = none → App.window_event app wid event a = (app, [])) ∧
    (App.window_event app wid event a).1.state2 = app.state2 := by
  refine ⟨rfl, ?_, ?_⟩
  · intro h
    simp [App.window_event, h]
  · cases hst : app.state with
    | none => simp [App.window_event, hst]
    | some s =>
        cases event with
        | RedrawRequested =>
            simp only [App.window_event, hst]
            cases hres : (s.update.render a).2.2 with
            | ok u => simp [hres]
            | error e => cases e <;> simp [hres]
        | KeyboardInput pk pressed =>
            cases pk <;> simp [App.window_event, hst]
        | CloseRequested => simp [App.window_event, hst]
        | Resized w h => simp [App.window_event, hst]
        | CursorMoved p => simp [App.window_event, hst]
        | Other => simp [App.window_event, hst]

/-- Witness for C7 amended: with no primary render state (second state
present), a close-requested event for window id 1 is dropped. -/
theorem C7_amended_witness :
    App.window_event { state := none, state2 := some configuredState } 1
        WindowEvent.CloseRequested (Except.ok ()) =
      ({ state := none, state2 := some configuredState }, []) :=
  (C7_amended_dispatch { state := none, state2 := some configuredState } 1 2
      WindowEvent.CloseRequested (Except.ok ())).2.1 rfl

/-- C8: handle_mouse_moved on a state whose window inner size is
(W, H) sets the clear color's red channel to x / W and green channel
to y / H while keeping the prior blue and alpha channels. -/
theorem C8_mouse_moved_color (s : State) (x y : ℚ) (W H : Nat)
    (hsize : s.windowSize = (W, H)) :
    (s.handle_mouse_moved (x, y)).clear_color =
      { r := x / (W : ℚ), g := y / (H : ℚ),
        b := s.clear_color.b, a := s.clear_color.a } := by
  simp [State.handle_mouse_moved, hsize]

/-- Witness for C8 at the sample 800x500 state and position (5, 7). -/
theorem C8_witness :
    (sampleState.handle_mouse_moved ((5 : ℚ), (7 : ℚ))).clear_color =
      { r := (5 : ℚ) / ((800 : Nat) : ℚ), g := (7 : ℚ) / ((500 : Nat) : ℚ),
        b := sampleState.clear_color.b, a := sampleState.clear_color.a } :=
  C8_mouse_moved_color sampleState 5 7 800 500 rfl

/-- C9: the cursor-moved handler actually wired in the event
dispatcher is handle_mouse_moved2, which stores the raw position in
the mouse-position field and changes nothing else — in particular all
four clear-color channels are untouched. -/
theorem C9_mouse_moved2_wiring (s : State) (s2 : Option State) (wid : Nat)
    (p : ℚ × ℚ) (a : Except SurfaceError Unit) :
    App.window_event { state := some s, state2 := s2 } wid
        (WindowEvent.CursorMoved p) a =
      ({ state := some { s with mouse_position := some p }, state2 := s2 }, []) ∧
    s.handle_mouse_moved2 p = { s with mouse_position := some p } :=
  ⟨rfl, rfl⟩

/-- C10: the configured flag is monotone: it is false when new
returns; a step sets it exactly when it was already set or the
operation is a resize with both dimensions positive; and once set,
every render call reaches texture acquisition (the drawing path). -/
theorem C10_configured_monotone (ws : Nat × Nat) (lg : Bool)
    (fmt pm am : Nat) (s : State) (op : Op)
    (a : Except SurfaceError Unit) :
    (State.new ws lg fmt pm am).is_surface_configured = false ∧
    ((step s op).1.is_surface_configured = true ↔
      (s.is_surface_configured = true ∨
        ∃ w h, op = Op.resize w h ∧ 0 < w ∧ 0 < h)) ∧
    (s.is_surface_configured = true →
      Effect.getCurrentTexture ∈ (s.render a).2.1) := by
  refine ⟨rfl, ?_, ?_⟩
  · cases op with
    | resize w h =>
        by_cases hwh : 0 < w ∧ 0 < h
        · simp only [step, State.resize, if_pos hwh]
          simp only [true_iff]
          exact Or.inr ⟨w, h, rfl, hwh⟩
        · simp only [step, State.resize, if_neg hwh]
          simp only [Op.resize.injEq]
          constructor
          · intro hflag
            exact Or.inl hflag
          · rintro (hflag | ⟨w1, h1, ⟨rfl, rfl⟩, hw1, hh1⟩)
            · exact hflag
            · exact absurd ⟨hw1, hh1⟩ hwh
    | render aa => simp [step, render_fst]
    | handle_key code pressed => simp [step, handle_key_fst]
    | handle_mouse_moved p => simp [step, State.handle_mouse_moved]
    | handle_mouse_moved2 p => simp [step, State.handle_mouse_moved2]
    | update => simp [step, State.update]
  · intro hc
    cases a <;> simp [State.render, hc]

/-- Witness for C10 at the configured sample state and an update
operation. -/
theorem C10_witness :
    (State.new (800, 500) true 0 0 0).is_surface_configured = false ∧
    ((step configuredState Op.update).1.is_surface_configured = true ↔
      (configuredState.is_surface_configured = true ∨
        ∃ w h, Op.update = Op.resize w h ∧ 0 < w ∧ 0 < h)) ∧
    Effect.getCurrentTexture ∈
      (configuredState.render (Except.ok ())).2.1 :=
  ⟨(C10_configured_monotone (800, 500) true 0 0 0 configuredState Op.update
      (Except.ok ())).1,
   (C10_configured_monotone (800, 500) true 0 0 0 configuredState Op.update
      (Except.ok ())).2.1,
   (C10_configured_monotone (800, 500) true 0 0 0 configuredState Op.update
      (Except.ok ())).2.2 rfl⟩
